import Mathlib

/-!
# Bookings service: verification of the reservation-lifecycle core

A shallow embedding of the booking-conflict detection and reservation
lifecycle subsystem of the bookings service (`bookings_service/app.py`,
`bookings_service/database.py`), with theorems settling the specification
claims about it.

Modelling conventions:
* SQLite rows become a `Booking` structure; the bookings table becomes a
  `Store` carrying the row list and the autoincrement counter.
* `current_timestamp` becomes an explicit `now : Nat` argument.
* Python exceptions (an unguarded `ValueError` or `TypeError` escaping a
  route) become `none` in an `Option`-valued result; `some` is a normal
  HTTP response.
* Python / SQLite string comparison is code-point lexicographic, which is
  exactly Lean's `String` order (for UTF-8 text, byte order and code-point
  order coincide).
* `str.isdigit` is modelled for ASCII text as "non-empty and all chars are
  `0`-`9`"; every string appearing in the claims is ASCII.
-/

/-- A row of the `bookings` table (`make_bookings_table_if_missing`). -/
structure Booking where
  id : Nat
  user_id : Nat
  room_id : Nat
  date : String
  start_time : String
  end_time : String
  status : String
  created_at : Nat
  updated_at : Nat
  deriving Repr, DecidableEq

/-- The bookings table: its rows plus the autoincrement counter that will
number the next inserted row. -/
structure Store where
  bookings : List Booking
  nextId : Nat
  deriving Repr, DecidableEq

/-- A row of the `users` table, as consumed by the bookings routes
(identity and role of a user). -/
structure User where
  id : Nat
  username : String
  role : String
  deriving Repr, DecidableEq

/-- The external collaborators the bookings routes read: the user directory
and the room catalog (room ids only: the routes use a room row solely for
an existence test). -/
structure Env where
  users : List User
  rooms : List Nat
  deriving Repr, DecidableEq

/-- The identity resolved by `get_current_user`: an optional username and an
optional role (either may be absent from the headers / token). -/
structure Ident where
  username : Option String
  role : Option String
  deriving Repr, DecidableEq

/-- `database.create_booking`: inserts a row with `status = 'active'` and
server-assigned timestamps, returning the new row id (`lastrowid`). -/
def create_booking (s : Store) (user_id room_id : Nat)
    (date start_time end_time : String) (now : Nat) : Nat × Store :=
  let b : Booking :=
    { id := s.nextId, user_id := user_id, room_id := room_id, date := date,
      start_time := start_time, end_time := end_time, status := "active",
      created_at := now, updated_at := now }
  (s.nextId, { bookings := s.bookings ++ [b], nextId := s.nextId + 1 })

/-- `database.update_booking`: `update bookings set date = ?, start_time = ?,
end_time = ?, updated_at = current_timestamp where id = ?`. -/
def update_booking (s : Store) (booking_id : Nat)
    (date start_time end_time : String) (now : Nat) : Store :=
  { s with bookings := s.bookings.map fun b =>
      if b.id = booking_id then
        { b with date := date, start_time := start_time,
                 end_time := end_time, updated_at := now }
      else b }

/-- `database.cancel_booking`: `update bookings set status = 'cancelled',
updated_at = current_timestamp where id = ?`. -/
def cancel_booking (s : Store) (booking_id : Nat) (now : Nat) : Store :=
  { s with bookings := s.bookings.map fun b =>
      if b.id = booking_id then
        { b with status := "cancelled", updated_at := now }
      else b }

/-- Python `str.isdigit`, restricted to ASCII text: non-empty and every
character a decimal digit. -/
def pyIsdigit (s : String) : Bool :=
  s.length != 0 && s.toList.all Char.isDigit

/-- Python `str.split(sep)` on the character list: every occurrence of the
separator splits, empty parts are preserved. -/
def splitChars (sep : Char) : List Char → List (List Char)
  | [] => [[]]
  | c :: cs =>
    if c = sep then [] :: splitChars sep cs
    else
      match splitChars sep cs with
      | [] => [[c]]
      | p :: ps => (c :: p) :: ps

/-- Python `str.split(sep)` for a one-character separator. -/
def pySplit (sep : Char) (s : String) : List String :=
  (splitChars sep s.toList).map List.asString

/-- Python `int(s)` on a string of ASCII decimal digits. -/
def pyInt (s : String) : Nat :=
  s.toList.foldl (fun n c => n * 10 + (c.toNat - 48)) 0

/-- Python `a < b` on strings: code-point lexicographic comparison, i.e.
the lexicographic order on the character lists (which is also Lean's
`String` order, see `strLt_iff`). -/
def strLt (a b : String) : Bool :=
  decide (a.toList < b.toList)

/-- Python `a <= b` on strings. -/
def strLe (a b : String) : Bool :=
  !(strLt b a)

theorem strLt_iff {a b : String} : strLt a b = true ↔ a < b := by
  rw [String.lt_iff_toList_lt]
  simp [strLt]

theorem strLt_eq_false_iff {a b : String} : strLt a b = false ↔ b ≤ a := by
  rw [← not_lt, ← strLt_iff]
  simp

theorem strLe_iff {a b : String} : strLe a b = true ↔ a ≤ b := by
  rw [← not_lt, ← strLt_iff]
  simp [strLe]

theorem strLe_eq_false_iff {a b : String} : strLe a b = false ↔ b < a := by
  rw [← strLt_iff]
  simp [strLe]

/-- `database.is_room_available`: true iff no row matches
`room_id = ? and date = ? and status = 'active' and
(start_time < end and end_time > start)`. -/
def is_room_available (bs : List Booking) (room_id : Nat)
    (date start_time end_time : String) : Bool :=
  !(bs.any fun b =>
    b.room_id == room_id && b.date == date && b.status == "active" &&
    strLt b.start_time end_time && strLt start_time b.end_time)

/-- Modelled from the spec: `get_by_id(id) -> Booking | not_found` (Booking
Store, spec section 4.1). `get_booking_by_id` is imported by `app.py` but its
body is absent from the provided `bookings_service/database.py`; the sibling
services implement the same lookup as `select * from bookings where id = ?`
with `fetchone`, i.e. the first row whose id matches, or nothing. -/
def get_booking_by_id (bs : List Booking) (booking_id : Nat) : Option Booking :=
  bs.find? fun b => b.id == booking_id

/-- Modelled from the spec: the User Directory collaborator,
`user-lookup-by-id returning identity+role` (spec sections 1 and 2).
`find_user_by_id` is imported by `app.py` but absent from the provided
`bookings_service/database.py`; the sibling services implement it as
`select * from users where id = ?` with `fetchone`. The argument is optional
because `app.py` passes `data.get("user_id")`, which may be `None`
(a `where id = NULL` match returns no row). -/
def find_user_by_id (users : List User) (user_id : Option Nat) : Option User :=
  match user_id with
  | none => none
  | some uid => users.find? fun u => u.id == uid

/-- Modelled from the spec: the Room Catalog collaborator,
`room-lookup-by-id confirming existence` (spec sections 1 and 2).
`find_room_by_id` is imported by `app.py` but absent from the provided
`bookings_service/database.py`; the routes only test the result for
truthiness, so the model returns the existence bit. -/
def find_room_by_id (rooms : List Nat) (room_id : Nat) : Bool :=
  rooms.contains room_id

/-- `app.valid_time`: length-5 `HH:MM` check. Returns `none` when
`hh, mm = t.split(":")` raises `ValueError` (the string has length 5, a `:`
at index 2, and a further `:` elsewhere, so the split has more than two
parts); otherwise `some` of the boolean the Python function returns. -/
def valid_time (t : String) : Option Bool :=
  if t.length ≠ 5 ∨ t.toList.getD 2 ' ' ≠ ':' then some false
  else
    match pySplit ':' t with
    | [hh, mm] =>
        some (pyIsdigit hh && pyIsdigit mm &&
          decide (pyInt hh ≤ 23) && decide (pyInt mm ≤ 59))
    | _ => none

/-- `app.valid_date`: length-10 `YYYY-MM-DD` check, month in 1..12 and day
in 1..31. Returns `none` when `yyyy, mm, dd = d.split("-")` raises
`ValueError` (more than three parts); otherwise `some` of the boolean the
Python function returns. -/
def valid_date (d : String) : Option Bool :=
  if d.length ≠ 10 ∨ d.toList.getD 4 ' ' ≠ '-' ∨ d.toList.getD 7 ' ' ≠ '-' then
    some false
  else
    match pySplit '-' d with
    | [yyyy, mm, dd] =>
        if ¬ (pyIsdigit yyyy ∧ pyIsdigit mm ∧ pyIsdigit dd) then some false
        else
          some (decide (1 ≤ pyInt mm) && decide (pyInt mm ≤ 12) &&
            decide (1 ≤ pyInt dd) && decide (pyInt dd ≤ 31))
    | _ => none

/-- C2: `is_room_available` is true iff no stored booking with the same
room, same date and status `active` satisfies the half-open overlap
predicate `existing.start_time < new.end_time ∧ existing.end_time >
new.start_time`; in particular a booking that is cancelled or updated, or
on another date or room, never makes it false. -/
theorem is_room_available_spec (bs : List Booking) (room_id : Nat)
    (date st et : String) :
    is_room_available bs room_id date st et = true ↔
      ∀ b ∈ bs, b.room_id = room_id → b.date = date → b.status = "active" →
        ¬ (b.start_time < et ∧ st < b.end_time) := by
  unfold is_room_available
  simp only [Bool.not_eq_true', List.any_eq_false, Bool.and_eq_true,
    beq_iff_eq, strLt_iff, decide_eq_true_eq, gt_iff_lt]
  constructor <;> intro h b hb <;> specialize h b hb <;> tauto

/-- C8: the store-level update rewrites only `date`, `start_time`,
`end_time` and `updated_at` of rows whose id is the targeted one: every
row keeps its `id`, `user_id`, `room_id`, `status` and `created_at`, and
every row whose id differs from the target is entirely unchanged. -/
theorem update_booking_frame (s : Store) (bid : Nat) (d st et : String)
    (now : Nat) (i : Nat) (b b' : Booking)
    (hb : s.bookings[i]? = some b)
    (hb' : (update_booking s bid d st et now).bookings[i]? = some b') :
    b'.id = b.id ∧ b'.user_id = b.user_id ∧ b'.room_id = b.room_id ∧
    b'.status = b.status ∧ b'.created_at = b.created_at ∧
    (b.id ≠ bid → b' = b) ∧
    (b.id = bid → b'.date = d ∧ b'.start_time = st ∧ b'.end_time = et ∧
      b'.updated_at = now) := by
  unfold update_booking at hb'
  rw [List.getElem?_map, hb, Option.map_some'] at hb'
  by_cases h : b.id = bid
  · rw [if_pos h] at hb'
    have := (Option.some_inj.mp hb').symm
    subst this
    simp [h]
  · rw [if_neg h] at hb'
    have := (Option.some_inj.mp hb').symm
    subst this
    simp [h]

/-- A concrete booking targeted by the frame witness. -/
def frameB1 : Booking :=
  { id := 1, user_id := 10, room_id := 5, date := "2025-01-01",
    start_time := "09:00", end_time := "10:00", status := "active",
    created_at := 0, updated_at := 0 }

/-- A second concrete booking, untouched by the frame witness update. -/
def frameB2 : Booking :=
  { id := 2, user_id := 11, room_id := 5, date := "2025-01-01",
    start_time := "11:00", end_time := "12:00", status := "active",
    created_at := 0, updated_at := 0 }

/-- `frameB1` after `update_booking` rewrote its schedule at time 7. -/
def frameB1upd : Booking :=
  { id := 1, user_id := 10, room_id := 5, date := "2025-02-02",
    start_time := "13:00", end_time := "14:00", status := "active",
    created_at := 0, updated_at := 7 }

/-- Witness for `update_booking_frame`: in a two-row store, updating row 1
rewrites exactly its schedule fields and `updated_at`. -/
theorem update_booking_frame_witness :
    frameB1upd.id = frameB1.id ∧ frameB1upd.user_id = frameB1.user_id ∧
    frameB1upd.room_id = frameB1.room_id ∧
    frameB1upd.status = frameB1.status ∧
    frameB1upd.created_at = frameB1.created_at ∧
    (frameB1.id ≠ 1 → frameB1upd = frameB1) ∧
    (frameB1.id = 1 → frameB1upd.date = "2025-02-02" ∧
      frameB1upd.start_time = "13:00" ∧ frameB1upd.end_time = "14:00" ∧
      frameB1upd.updated_at = 7) :=
  update_booking_frame { bookings := [frameB1, frameB2], nextId := 3 } 1
    "2025-02-02" "13:00" "14:00" 7 0 frameB1 frameB1upd (by decide)
    (by decide)

/-- An HTTP response of a mutating route: status code and the message
(the `error` / `message` field of the JSON body). -/
structure RouteResult where
  status : Nat
  msg : String
  deriving Repr, DecidableEq

/-- The JSON body of a create request; each field may be absent. -/
structure CreateReq where
  user_id : Option Nat
  room_id : Option Nat
  date : Option String
  start_time : Option String
  end_time : Option String
  deriving Repr, DecidableEq

/-- The JSON body of an update request. -/
structure UpdateReq where
  date : Option String
  start_time : Option String
  end_time : Option String
  deriving Repr, DecidableEq

/-- The JSON body of an availability request. -/
structure AvailReq where
  date : Option String
  start_time : Option String
  end_time : Option String
  deriving Repr, DecidableEq

/-- The response of the availability route: status, message, and the
`available` boolean when the query succeeded. -/
structure AvailResult where
  status : Nat
  msg : String
  available : Option Bool
  deriving Repr, DecidableEq

/-- Python truthiness of an optional integer field (`not data.get(f)`):
absent or `0` counts as missing. -/
def falsyNat : Option Nat → Bool
  | none => true
  | some n => n == 0

/-- Python truthiness of an optional string field: absent or empty counts
as missing. -/
def falsyStr : Option String → Bool
  | none => true
  | some t => t == ""

/-- `app.require_fields`: collects (in field order) the names whose value
is falsy and produces the `missing: <fields>` message, or nothing. -/
def require_fields_msg (checks : List (String × Bool)) : Option String :=
  let missing := (checks.filter fun c => c.2).map fun c => c.1
  if missing.isEmpty then none
  else some ("missing: " ++ String.intercalate ", " missing)

/-- The body of `make_booking_route` after its RBAC prologue: field
presence, time/date format, ordering, room existence, availability, then
the insert (`create_booking`) with the `lastrowid` truthiness check. -/
def make_booking_validated (env : Env) (data : CreateReq) (s : Store)
    (now : Nat) : Option (RouteResult × Store) :=
  match require_fields_msg
      [("user_id", falsyNat data.user_id), ("room_id", falsyNat data.room_id),
       ("date", falsyStr data.date), ("start_time", falsyStr data.start_time),
       ("end_time", falsyStr data.end_time)] with
  | some msg => some (⟨400, msg⟩, s)
  | none =>
    -- every field is present here, so the defaults of `getD` are never taken
    let uid := data.user_id.getD 0
    let rid := data.room_id.getD 0
    let d := data.date.getD ""
    let st := data.start_time.getD ""
    let et := data.end_time.getD ""
    match valid_time st with
    | none => none
    | some vst =>
      if vst = false then some (⟨400, "invalid time format HH:MM"⟩, s)
      else
        match valid_time et with
        | none => none
        | some vet =>
          if vet = false then some (⟨400, "invalid time format HH:MM"⟩, s)
          else
            match valid_date d with
            | none => none
            | some vd =>
              if vd = false then
                some (⟨400, "invalid date format YYYY-MM-DD"⟩, s)
              else if strLe et st then
                some (⟨400, "end_time must be after start_time"⟩, s)
              else if find_room_by_id env.rooms rid = false then
                some (⟨404, "room not found"⟩, s)
              else if is_room_available s.bookings rid d st et = false then
                some (⟨409, "Unfortunately =(, the room is not available for this time slot. Either choose another room or another time."⟩, s)
              else
                let r := create_booking s uid rid d st et now
                if r.1 = 0 then some (⟨500, "could not create booking"⟩, r.2)
                else some (⟨201, "booking created"⟩, r.2)

/-- `app.make_booking_route` (`POST /bookings`): the `require_roles("admin",
"regular", "facility_manager")` decorator, then the regular-user ownership
check (which runs before field presence), then the validated body. -/
def make_booking_route (env : Env) (ident : Ident) (data : CreateReq)
    (s : Store) (now : Nat) : Option (RouteResult × Store) :=
  match ident.role with
  | none => some (⟨401, "missing X-User-Role header"⟩, s)
  | some role =>
    if role = "admin" ∨ role = "regular" ∨ role = "facility_manager" then
      if role = "regular" then
        match find_user_by_id env.users data.user_id with
        | none => some (⟨404, "user not found"⟩, s)
        | some u =>
          if some u.username ≠ ident.username then
            some (⟨403, "forbidden: you can only create bookings for yourself"⟩, s)
          else make_booking_validated env data s now
      else make_booking_validated env data s now
    else
      some (⟨403, "forbidden: requires one of roles: admin, regular, facility_manager"⟩, s)

/-- The body of `update_booking_route` after its RBAC prologue: field
presence, formats, ordering, the room-still-exists check on the booking's
own room, availability of the new window, then `update_booking`. -/
def update_booking_validated (env : Env) (booking_id : Nat) (row : Booking)
    (data : UpdateReq) (s : Store) (now : Nat) : Option (RouteResult × Store) :=
  match require_fields_msg
      [("date", falsyStr data.date), ("start_time", falsyStr data.start_time),
       ("end_time", falsyStr data.end_time)] with
  | some msg => some (⟨400, msg⟩, s)
  | none =>
    let d := data.date.getD ""
    let st := data.start_time.getD ""
    let et := data.end_time.getD ""
    match valid_time st with
    | none => none
    | some vst =>
      if vst = false then some (⟨400, "invalid time format HH:MM"⟩, s)
      else
        match valid_time et with
        | none => none
        | some vet =>
          if vet = false then some (⟨400, "invalid time format HH:MM"⟩, s)
          else
            match valid_date d with
            | none => none
            | some vd =>
              if vd = false then
                some (⟨400, "invalid date format YYYY-MM-DD"⟩, s)
              else if strLe et st then
                some (⟨400, "end_time must be after start_time"⟩, s)
              else if find_room_by_id env.rooms row.room_id = false then
                some (⟨404, "room not found"⟩, s)
              else if is_room_available s.bookings row.room_id d st et = false then
                -- source text: room's not available for this updated time
                -- slot (apostrophe elided in the model string)
                some (⟨409, "rooms not available for this updated time slot"⟩, s)
              else
                some (⟨200, "booking updated"⟩,
                  update_booking s booking_id d st et now)

/-- `app.update_booking_route` (`PUT /bookings/{id}`): the
`require_roles("admin", "regular")` decorator, booking existence, owner
lookup (with a not-found guard), the admin / regular-owner / other-role
authorization ladder, then the validated body. -/
def update_booking_route (env : Env) (ident : Ident) (booking_id : Nat)
    (data : UpdateReq) (s : Store) (now : Nat) : Option (RouteResult × Store) :=
  match ident.role with
  | none => some (⟨401, "missing X-User-Role header"⟩, s)
  | some role =>
    if role = "admin" ∨ role = "regular" then
      match get_booking_by_id s.bookings booking_id with
      | none => some (⟨404, "booking not found"⟩, s)
      | some row =>
        match find_user_by_id env.users (some row.user_id) with
        | none => some (⟨404, "booking user not found"⟩, s)
        | some owner =>
          if role ≠ "admin" then
            if role = "regular" then
              if ident.username ≠ some owner.username then
                some (⟨403, "forbidden: you can only update your own booking"⟩, s)
              else update_booking_validated env booking_id row data s now
            else
              some (⟨403, "forbidden: your role cannot modify bookings"⟩, s)
          else update_booking_validated env booking_id row data s now
    else
      some (⟨403, "forbidden: requires one of roles: admin, regular"⟩, s)

/-- The tail of `cancel_booking_route` once authorization has passed: the
idempotency check on an already-cancelled booking, else the status flip. -/
def cancel_booking_act (row : Booking) (booking_id : Nat) (s : Store)
    (now : Nat) : RouteResult × Store :=
  if row.status = "cancelled" then (⟨200, "booking already cancelled"⟩, s)
  else (⟨200, "booking cancelled"⟩, cancel_booking s booking_id now)

/-- `app.cancel_booking_route` (`DELETE /bookings/{id}`): the
`require_roles("admin", "regular")` decorator, booking existence, then for
a regular caller the owner lookup dereferenced without a not-found guard
(`booking_user["username"]`: a missing owner raises `TypeError`, modelled
as `none`), then the idempotent-cancel tail. -/
def cancel_booking_route (env : Env) (ident : Ident) (booking_id : Nat)
    (s : Store) (now : Nat) : Option (RouteResult × Store) :=
  match ident.role with
  | none => some (⟨401, "missing X-User-Role header"⟩, s)
  | some role =>
    if role = "admin" ∨ role = "regular" then
      match get_booking_by_id s.bookings booking_id with
      | none => some (⟨404, "booking not found"⟩, s)
      | some row =>
        if role = "regular" then
          match find_user_by_id env.users (some row.user_id) with
          | none => none
          | some u =>
            if some u.username ≠ ident.username then
              some (⟨403, "forbidden: you can only cancel your own bookings"⟩, s)
            else some (cancel_booking_act row booking_id s now)
        else some (cancel_booking_act row booking_id s now)
    else
      some (⟨403, "forbidden: requires one of roles: admin, regular"⟩, s)

/-- `app.check_room_availability_route` (`POST /rooms/{id}/availability`):
no role decorator and no identity read anywhere in the body — `ident` is
the identity carried by the request and is never consulted. Room existence
is checked first, then field presence, formats, ordering, then the
availability boolean. The route never writes the store. -/
def check_room_availability_route (env : Env) (ident : Ident) (room_id : Nat)
    (data : AvailReq) (s : Store) : Option AvailResult :=
  if find_room_by_id env.rooms room_id = false then
    some ⟨404, "room not found", none⟩
  else if falsyStr data.date || falsyStr data.start_time || falsyStr data.end_time then
    some ⟨400, "date, start_time, end_time are required", none⟩
  else
    let d := data.date.getD ""
    let st := data.start_time.getD ""
    let et := data.end_time.getD ""
    match valid_time st with
    | none => none
    | some vst =>
      if vst = false then some ⟨400, "invalid time format HH:MM", none⟩
      else
        match valid_time et with
        | none => none
        | some vet =>
          if vet = false then some ⟨400, "invalid time format HH:MM", none⟩
          else
            match valid_date d with
            | none => none
            | some vd =>
              if vd = false then
                some ⟨400, "invalid date format YYYY-MM-DD", none⟩
              else if strLe et st then
                some ⟨400, "end_time must be after start_time", none⟩
              else
                some ⟨200, "", some (is_room_available s.bookings room_id d st et)⟩

theorem valid_time_true_ne_empty {t : String} (h : valid_time t = some true) :
    t ≠ "" := by
  intro he
  rw [he] at h
  exact absurd h (by decide)

theorem valid_date_true_ne_empty {d : String} (h : valid_date d = some true) :
    d ≠ "" := by
  intro he
  rw [he] at h
  exact absurd h (by decide)

theorem is_room_available_false_of_conflict {bs : List Booking} {rid : Nat}
    {d st et : String} {b : Booking} (hmem : b ∈ bs) (hroom : b.room_id = rid)
    (hdate : b.date = d) (hstatus : b.status = "active")
    (h1 : b.start_time < et) (h2 : st < b.end_time) :
    is_room_available bs rid d st et = false := by
  unfold is_room_available
  simp only [Bool.not_eq_false', List.any_eq_true]
  exact ⟨b, hmem, by simp [hroom, hdate, hstatus, strLt_iff, h1, h2]⟩

/-- C5 counterexample: a request with no resolvable identity at all (no
token, no headers) still gets the availability boolean with HTTP 200; the
route does not fail with 401. -/
theorem check_availability_counterexample :
    check_room_availability_route { users := [], rooms := [5] } ⟨none, none⟩ 5
      { date := some "2025-01-10", start_time := some "09:00",
        end_time := some "10:00" }
      { bookings := [], nextId := 1 } = some ⟨200, "", some true⟩ ∧
    ∀ r : AvailResult,
      check_room_availability_route { users := [], rooms := [5] } ⟨none, none⟩ 5
        { date := some "2025-01-10", start_time := some "09:00",
          end_time := some "10:00" }
        { bookings := [], nextId := 1 } = some r → r.status ≠ 401 := by
  refine ⟨by decide, ?_⟩
  intro r hr
  have : r = ⟨200, "", some true⟩ := by
    have h : some (⟨200, "", some true⟩ : AvailResult) = some r := by
      rw [← hr]; decide
    exact (Option.some_inj.mp h).symm
  rw [this]
  decide

/-- C5 amended: the availability route requires no authentication — it
never consults the caller identity, and whenever the room exists and the
fields are present, well-formed and ordered, any caller (including one
with no resolvable identity) receives HTTP 200 with the availability
boolean. -/
theorem check_availability_no_auth (env : Env) (ident ident2 : Ident)
    (room_id : Nat) (data : AvailReq) (s : Store) (d st et : String)
    (hroom : find_room_by_id env.rooms room_id = true)
    (hd : data.date = some d) (hst : data.start_time = some st)
    (het : data.end_time = some et)
    (hvt : valid_time st = some true) (hvt2 : valid_time et = some true)
    (hvd : valid_date d = some true) (hord : st < et) :
    check_room_availability_route env ident room_id data s =
      some ⟨200, "", some (is_room_available s.bookings room_id d st et)⟩ ∧
    check_room_availability_route env ident room_id data s =
      check_room_availability_route env ident2 room_id data s := by
  constructor
  · have hne1 : falsyStr (some st) = false := by
      simp [falsyStr, valid_time_true_ne_empty hvt]
    have hne2 : falsyStr (some et) = false := by
      simp [falsyStr, valid_time_true_ne_empty hvt2]
    have hne3 : falsyStr (some d) = false := by
      simp [falsyStr, valid_date_true_ne_empty hvd]
    have hord2 : strLe et st = false := strLe_eq_false_iff.mpr hord
    simp [check_room_availability_route, hroom, hd, hst, het, hne1, hne2,
      hne3, hvt, hvt2, hvd, hord2]
  · rfl

/-- Witness for `check_availability_no_auth` at a concrete input. -/
theorem check_availability_no_auth_witness :
    check_room_availability_route { users := [], rooms := [7] } ⟨none, none⟩ 7
      { date := some "2025-03-03", start_time := some "10:00",
        end_time := some "11:00" } { bookings := [], nextId := 1 } =
      some ⟨200, "",
        some (is_room_available [] 7 "2025-03-03" "10:00" "11:00")⟩ :=
  (check_availability_no_auth { users := [], rooms := [7] } ⟨none, none⟩
    ⟨some "x", some "admin"⟩ 7
    { date := some "2025-03-03", start_time := some "10:00",
      end_time := some "11:00" } { bookings := [], nextId := 1 }
    "2025-03-03" "10:00" "11:00" (by decide) rfl rfl rfl (by decide)
    (by decide) (by decide) (strLt_iff.mp (by decide))).1

/-- C7: on the malformed time `1::30` (length 5, colon at index 2, second
colon elsewhere) `valid_time` does not return `False` — the Python
`hh, mm = t.split(":")` unpacking raises `ValueError` — so a Create
carrying it crashes instead of answering 400 `ValidationError`, against
the spec (and against the docstring of `valid_time` itself). -/
theorem valid_time_double_colon_crash :
    valid_time "1::30" = none ∧
    make_booking_route { users := [], rooms := [5] }
      ⟨some "root", some "admin"⟩
      { user_id := some 1, room_id := some 5, date := some "2025-01-10",
        start_time := some "1::30", end_time := some "10:00" }
      { bookings := [], nextId := 1 } 0 = none := by
  exact ⟨by decide, by decide⟩

/-- C10: in Cancel, when the caller is `regular` the owner row looked up
from the booking's `user_id` is dereferenced without a not-found guard:
if the owner is missing the route crashes (modelled `none`), while an
`admin` caller proceeds to a 200 response with no need for the owner to
exist. -/
theorem cancel_owner_deref_unguarded (env : Env) (ident : Ident) (bid : Nat)
    (s : Store) (now : Nat) (row : Booking)
    (hrow : get_booking_by_id s.bookings bid = some row)
    (howner : find_user_by_id env.users (some row.user_id) = none) :
    (ident.role = some "regular" →
      cancel_booking_route env ident bid s now = none) ∧
    (ident.role = some "admin" →
      ∃ r s2, cancel_booking_route env ident bid s now = some (r, s2) ∧
        r.status = 200) := by
  constructor
  · intro hrole
    simp [cancel_booking_route, hrole, hrow, howner]
  · intro hrole
    have hstat : (cancel_booking_act row bid s now).1.status = 200 := by
      unfold cancel_booking_act
      by_cases hc : row.status = "cancelled" <;> simp [hc]
    refine ⟨(cancel_booking_act row bid s now).1,
      (cancel_booking_act row bid s now).2, ?_, hstat⟩
    simp [cancel_booking_route, hrole, hrow]

/-- A concrete booking used by witnesses: booked by the (possibly absent)
user 99 in room 5. -/
def orphanBooking : Booking :=
  { id := 1, user_id := 99, room_id := 5, date := "2025-01-10",
    start_time := "09:00", end_time := "10:00", status := "active",
    created_at := 0, updated_at := 0 }

/-- Witness for `cancel_owner_deref_unguarded`: a store whose only booking
references user 99, absent from the user directory. -/
theorem cancel_owner_deref_unguarded_witness :
    cancel_booking_route { users := [], rooms := [5] }
      ⟨some "alice", some "regular"⟩ 1
      { bookings := [orphanBooking], nextId := 2 } 7 = none :=
  (cancel_owner_deref_unguarded { users := [], rooms := [5] }
    ⟨some "alice", some "regular"⟩ 1
    { bookings := [orphanBooking], nextId := 2 } 7 orphanBooking
    (by decide) (by decide)).1 rfl

/-- C6: cancelling an already-cancelled booking is idempotent — an
authorized Cancel (admin, or the regular owner) answers 200 with the
distinct message `booking already cancelled` and returns the store
untouched, so `updated_at` is not rewritten a second time. -/
theorem cancel_already_cancelled (env : Env) (ident : Ident) (bid : Nat)
    (s : Store) (now : Nat) (row : Booking)
    (hrow : get_booking_by_id s.bookings bid = some row)
    (hc : row.status = "cancelled")
    (hauth : ident.role = some "admin" ∨
      (ident.role = some "regular" ∧ ∃ u,
        find_user_by_id env.users (some row.user_id) = some u ∧
        ident.username = some u.username)) :
    cancel_booking_route env ident bid s now =
      some (⟨200, "booking already cancelled"⟩, s) := by
  rcases hauth with ha | ⟨hr, u, hu, hn⟩
  · simp [cancel_booking_route, ha, hrow, cancel_booking_act, hc]
  · simp [cancel_booking_route, hr, hrow, hu, hn, cancel_booking_act, hc]

/-- A concrete cancelled booking owned by user 1, used by witnesses. -/
def cancelledBooking : Booking :=
  { id := 1, user_id := 1, room_id := 5, date := "2025-01-10",
    start_time := "09:00", end_time := "10:00", status := "cancelled",
    created_at := 0, updated_at := 4 }

/-- Witness for `cancel_already_cancelled`: the regular owner re-cancels
an already-cancelled booking. -/
theorem cancel_already_cancelled_witness :
    cancel_booking_route
      { users := [{ id := 1, username := "alice", role := "regular" }],
        rooms := [5] }
      ⟨some "alice", some "regular"⟩ 1
      { bookings := [cancelledBooking], nextId := 2 } 9 =
      some (⟨200, "booking already cancelled"⟩,
        { bookings := [cancelledBooking], nextId := 2 }) :=
  cancel_already_cancelled
    { users := [{ id := 1, username := "alice", role := "regular" }],
      rooms := [5] }
    ⟨some "alice", some "regular"⟩ 1
    { bookings := [cancelledBooking], nextId := 2 } 9 cancelledBooking
    (by decide) (by decide)
    (Or.inr ⟨rfl, { id := 1, username := "alice", role := "regular" },
      by decide, rfl⟩)

/-- C3: ownership enforcement for `regular` callers — whenever the booking
owner resolved from `user_id` has a username different from the caller's,
Create, Update and Cancel each answer 403 and return the store unchanged. -/
theorem regular_ownership_enforced (env : Env) (ident : Ident) (s : Store)
    (now : Nat) (hrole : ident.role = some "regular") :
    (∀ (data : CreateReq) (u : User),
      find_user_by_id env.users data.user_id = some u →
      ident.username ≠ some u.username →
      make_booking_route env ident data s now =
        some (⟨403, "forbidden: you can only create bookings for yourself"⟩, s)) ∧
    (∀ (bid : Nat) (data : UpdateReq) (row : Booking) (u : User),
      get_booking_by_id s.bookings bid = some row →
      find_user_by_id env.users (some row.user_id) = some u →
      ident.username ≠ some u.username →
      update_booking_route env ident bid data s now =
        some (⟨403, "forbidden: you can only update your own booking"⟩, s)) ∧
    (∀ (bid : Nat) (row : Booking) (u : User),
      get_booking_by_id s.bookings bid = some row →
      find_user_by_id env.users (some row.user_id) = some u →
      ident.username ≠ some u.username →
      cancel_booking_route env ident bid s now =
        some (⟨403, "forbidden: you can only cancel your own bookings"⟩, s)) := by
  refine ⟨?_, ?_, ?_⟩
  · intro data u hu hne
    simp [make_booking_route, hrole, hu, hne, Ne.symm hne]
  · intro bid data row u hrow hu hne
    simp [update_booking_route, hrole, hrow, hu, hne]
  · intro bid row u hrow hu hne
    simp [cancel_booking_route, hrole, hrow, hu, hne, Ne.symm hne]

/-- Witness for `regular_ownership_enforced`: caller `bob` targets a
booking/creation owned by `alice`. -/
theorem regular_ownership_enforced_witness :
    make_booking_route
      { users := [{ id := 1, username := "alice", role := "regular" }],
        rooms := [5] }
      ⟨some "bob", some "regular"⟩
      { user_id := some 1, room_id := some 5, date := some "2025-01-10",
        start_time := some "09:00", end_time := some "10:00" }
      { bookings := [], nextId := 1 } 0 =
      some (⟨403, "forbidden: you can only create bookings for yourself"⟩,
        { bookings := [], nextId := 1 }) :=
  (regular_ownership_enforced
    { users := [{ id := 1, username := "alice", role := "regular" }],
      rooms := [5] }
    ⟨some "bob", some "regular"⟩ { bookings := [], nextId := 1 } 0 rfl).1
    { user_id := some 1, room_id := some 5, date := some "2025-01-10",
      start_time := some "09:00", end_time := some "10:00" }
    { id := 1, username := "alice", role := "regular" }
    (by decide) (by decide)

/-- C4 counterexample: for a `regular` caller the ownership check runs
before the field-presence check, so a Create request missing `user_id` is
answered 404 `user not found` — not 400 `missing: user_id` — refuting both
"for every caller role" and "first check applied". -/
theorem create_missing_field_counterexample :
    make_booking_route { users := [], rooms := [5] }
      ⟨some "alice", some "regular"⟩
      { user_id := none, room_id := some 5, date := some "2025-01-10",
        start_time := some "09:00", end_time := some "10:00" }
      { bookings := [], nextId := 1 } 0 =
      some (⟨404, "user not found"⟩, { bookings := [], nextId := 1 }) := by
  decide

/-- C4 amended: Create rejects requests with absent or empty (falsy)
fields with 400 `missing: <fields>` before format, existence and
availability checks and without mutating the store — immediately for
`admin` and `facility_manager` callers, but for `regular` callers only
after the ownership check (user lookup from `user_id`) has passed, so a
regular request with a missing `user_id` fails that earlier check
instead. -/
theorem create_missing_fields (env : Env) (ident : Ident) (data : CreateReq)
    (s : Store) (now : Nat) (msg : String)
    (hmiss : require_fields_msg
      [("user_id", falsyNat data.user_id), ("room_id", falsyNat data.room_id),
       ("date", falsyStr data.date), ("start_time", falsyStr data.start_time),
       ("end_time", falsyStr data.end_time)] = some msg) :
    ((ident.role = some "admin" ∨ ident.role = some "facility_manager") →
      make_booking_route env ident data s now = some (⟨400, msg⟩, s)) ∧
    (ident.role = some "regular" → ∀ u : User,
      find_user_by_id env.users data.user_id = some u →
      ident.username = some u.username →
      make_booking_route env ident data s now = some (⟨400, msg⟩, s)) := by
  constructor
  · rintro (h | h) <;>
      simp [make_booking_route, h, make_booking_validated, hmiss]
  · intro h u hu hname
    simp [make_booking_route, h, hu, hname, make_booking_validated, hmiss]

/-- Witness for `create_missing_fields`: an admin Create missing `user_id`
gets 400 `missing: user_id`. -/
theorem create_missing_fields_witness :
    make_booking_route { users := [], rooms := [5] }
      ⟨some "root", some "admin"⟩
      { user_id := none, room_id := some 5, date := some "2025-01-10",
        start_time := some "09:00", end_time := some "10:00" }
      { bookings := [], nextId := 1 } 0 =
      some (⟨400, "missing: user_id"⟩, { bookings := [], nextId := 1 }) :=
  (create_missing_fields { users := [], rooms := [5] }
    ⟨some "root", some "admin"⟩
    { user_id := none, room_id := some 5, date := some "2025-01-10",
      start_time := some "09:00", end_time := some "10:00" }
    { bookings := [], nextId := 1 } 0 "missing: user_id" (by decide)).1
    (Or.inl rfl)

/-- C9: an authorized, validly-formatted Update of an active booking whose
new window, on the booking's own date and (fixed) room, overlaps the
booking's current `[start_time, end_time)` window — in particular an exact
resubmission of the current window — is refused with 409: the
availability query does not exclude the booking's own row, which overlaps
the proposed window. -/
theorem update_self_conflict (env : Env) (ident : Ident) (bid : Nat)
    (data : UpdateReq) (s : Store) (now : Nat) (row : Booking) (owner : User)
    (st et : String)
    (hrow : get_booking_by_id s.bookings bid = some row)
    (howner : find_user_by_id env.users (some row.user_id) = some owner)
    (hauth : ident.role = some "admin" ∨
      (ident.role = some "regular" ∧ ident.username = some owner.username))
    (hactive : row.status = "active")
    (hd : data.date = some row.date)
    (hst : data.start_time = some st)
    (het : data.end_time = some et)
    (hvt : valid_time st = some true)
    (hvt2 : valid_time et = some true)
    (hvd : valid_date row.date = some true)
    (hord : st < et)
    (hoverlap : row.start_time < et ∧ st < row.end_time)
    (hroom : find_room_by_id env.rooms row.room_id = true) :
    update_booking_route env ident bid data s now =
      some (⟨409, "rooms not available for this updated time slot"⟩, s) := by
  have hmem : row ∈ s.bookings := List.mem_of_find?_eq_some hrow
  have hconf : is_room_available s.bookings row.room_id row.date
      st et = false :=
    is_room_available_false_of_conflict hmem rfl rfl hactive hoverlap.1
      hoverlap.2
  have hne1 : falsyStr (some st) = false := by
    simp [falsyStr, valid_time_true_ne_empty hvt]
  have hne2 : falsyStr (some et) = false := by
    simp [falsyStr, valid_time_true_ne_empty hvt2]
  have hne3 : falsyStr (some row.date) = false := by
    simp [falsyStr, valid_date_true_ne_empty hvd]
  have hord2 : strLe et st = false :=
    strLe_eq_false_iff.mpr hord
  rcases hauth with ha | ⟨hr, hn⟩
  · simp [update_booking_route, ha, hrow, howner, update_booking_validated,
      require_fields_msg, hd, hst, het, hne1, hne2, hne3, hvt, hvt2, hvd,
      hord2, hroom, hconf]
  · simp [update_booking_route, hr, hrow, howner, hn,
      update_booking_validated, require_fields_msg, hd, hst, het, hne1,
      hne2, hne3, hvt, hvt2, hvd, hord2, hroom, hconf]

/-- A concrete active booking owned by user 1 in room 5, used by
witnesses. -/
def activeBooking : Booking :=
  { id := 1, user_id := 1, room_id := 5, date := "2025-01-10",
    start_time := "09:00", end_time := "10:00", status := "active",
    created_at := 0, updated_at := 0 }

/-- Witness for `update_self_conflict`: the store's only booking
(09:00-10:00) is moved by an admin to the overlapping window 09:30-10:30
and is refused 409 — no other booking exists, so the conflict is with the
booking's own row. -/
theorem update_self_conflict_witness :
    update_booking_route
      { users := [{ id := 1, username := "alice", role := "regular" }],
        rooms := [5] }
      ⟨some "root", some "admin"⟩ 1
      { date := some "2025-01-10", start_time := some "09:30",
        end_time := some "10:30" }
      { bookings := [activeBooking], nextId := 2 } 6 =
      some (⟨409, "rooms not available for this updated time slot"⟩,
        { bookings := [activeBooking], nextId := 2 }) :=
  update_self_conflict
    { users := [{ id := 1, username := "alice", role := "regular" }],
      rooms := [5] }
    ⟨some "root", some "admin"⟩ 1
    { date := some "2025-01-10", start_time := some "09:30",
      end_time := some "10:30" }
    { bookings := [activeBooking], nextId := 2 } 6 activeBooking
    { id := 1, username := "alice", role := "regular" } "09:30" "10:30"
    (by decide) (by decide) (Or.inl rfl) (by decide) (by decide) (by decide)
    (by decide) (by decide) (by decide) (by decide)
    (strLt_iff.mp (by decide))
    ⟨strLt_iff.mp (by decide), strLt_iff.mp (by decide)⟩ (by decide)

theorem make_booking_validated_201 {env : Env} {data : CreateReq} {s : Store}
    {now : Nat} {r : RouteResult} {s' : Store}
    (h : make_booking_validated env data s now = some (r, s'))
    (h201 : r.status = 201) :
    ∃ uid rid d st et, is_room_available s.bookings rid d st et = true ∧
      s' = (create_booking s uid rid d st et now).2 := by
  unfold make_booking_validated at h
  simp only [] at h
  repeat' split at h
  all_goals
    first
      | (simp only [Option.some_inj, Prod.mk.injEq] at h;
         obtain ⟨h1, h2⟩ := h;
         subst h1;
         first
           | (subst h2; simp at h201; done)
           | (refine ⟨_, _, _, _, _, ?_, h2.symm⟩; simp_all))
      | exact Option.noConfusion h

theorem make_booking_route_201 {env : Env} {ident : Ident} {data : CreateReq}
    {s : Store} {now : Nat} {r : RouteResult} {s' : Store}
    (h : make_booking_route env ident data s now = some (r, s'))
    (h201 : r.status = 201) :
    ∃ uid rid d st et, is_room_available s.bookings rid d st et = true ∧
      s' = (create_booking s uid rid d st et now).2 := by
  unfold make_booking_route at h
  repeat' split at h
  all_goals
    first
      | (simp only [Option.some_inj, Prod.mk.injEq] at h;
         obtain ⟨h1, h2⟩ := h; subst h1; simp at h201)
      | exact make_booking_validated_201 h h201
      | exact Option.noConfusion h

theorem update_booking_validated_200 {env : Env} {bid : Nat} {row : Booking}
    {data : UpdateReq} {s : Store} {now : Nat} {r : RouteResult} {s' : Store}
    (h : update_booking_validated env bid row data s now = some (r, s'))
    (h200 : r.status = 200) :
    ∃ d st et, is_room_available s.bookings row.room_id d st et = true ∧
      s' = update_booking s bid d st et now := by
  unfold update_booking_validated at h
  simp only [] at h
  repeat' split at h
  all_goals
    first
      | (simp only [Option.some_inj, Prod.mk.injEq] at h;
         obtain ⟨h1, h2⟩ := h;
         subst h1;
         first
           | (subst h2; simp at h200; done)
           | (refine ⟨_, _, _, ?_, h2.symm⟩; simp_all))
      | exact Option.noConfusion h

theorem update_booking_route_200 {env : Env} {ident : Ident} {bid : Nat}
    {data : UpdateReq} {s : Store} {now : Nat} {r : RouteResult} {s' : Store}
    (h : update_booking_route env ident bid data s now = some (r, s'))
    (h200 : r.status = 200) :
    ∃ row d st et, get_booking_by_id s.bookings bid = some row ∧
      is_room_available s.bookings row.room_id d st et = true ∧
      s' = update_booking s bid d st et now := by
  unfold update_booking_route at h
  repeat' split at h
  all_goals
    first
      | (simp only [Option.some_inj, Prod.mk.injEq] at h;
         obtain ⟨h1, h2⟩ := h; subst h1; simp at h200)
      | (obtain ⟨d, st, et, hav, hs⟩ := update_booking_validated_200 h h200;
         exact ⟨_, d, st, et, by assumption, hav, hs⟩)
      | exact Option.noConfusion h

/-- A booking counts toward availability conflicts at a given room and
date: same room, same date, status `active` (spec glossary). -/
def activeAt (room_id : Nat) (date : String) (b : Booking) : Prop :=
  b.room_id = room_id ∧ b.date = date ∧ b.status = "active"

/-- The half-open-window overlap predicate of spec section 3 between two
stored bookings. -/
def windowsOverlap (a b : Booking) : Prop :=
  a.start_time < b.end_time ∧ b.start_time < a.end_time

/-- The no-overlap invariant at (room, date): no two distinct rows that
are both active there have overlapping windows. -/
def NoOverlap (room_id : Nat) (date : String) (bs : List Booking) : Prop :=
  ∀ (i j : Nat) (hi : i < bs.length) (hj : j < bs.length), i ≠ j →
    activeAt room_id date bs[i] → activeAt room_id date bs[j] →
    ¬ windowsOverlap bs[i] bs[j]

/-- Well-formedness the schema enforces (`id integer primary key
autoincrement`): the counter is positive and strictly above every stored
id, and stored ids are pairwise distinct. -/
def Store.wf (s : Store) : Prop :=
  0 < s.nextId ∧ (∀ b ∈ s.bookings, b.id < s.nextId) ∧
    (s.bookings.map Booking.id).Nodup

/-- The stores reachable from `s0` by sequences of successful operations:
Creates that answered 201 and Updates that answered 200. -/
inductive Reaches (s0 : Store) : Store → Prop where
  | refl : Reaches s0 s0
  | create {s s' : Store} (env : Env) (ident : Ident) (data : CreateReq)
      (now : Nat) (r : RouteResult) : Reaches s0 s →
      make_booking_route env ident data s now = some (r, s') →
      r.status = 201 → Reaches s0 s'
  | update {s s' : Store} (env : Env) (ident : Ident) (bid : Nat)
      (data : UpdateReq) (now : Nat) (r : RouteResult) : Reaches s0 s →
      update_booking_route env ident bid data s now = some (r, s') →
      r.status = 200 → Reaches s0 s'

theorem wf_create {s : Store} (uid rid : Nat) (d st et : String) (now : Nat)
    (hwf : Store.wf s) : Store.wf (create_booking s uid rid d st et now).2 := by
  obtain ⟨h1, h2, h3⟩ := hwf
  refine ⟨Nat.lt_succ_of_lt h1, ?_, ?_⟩
  · intro b hb
    rcases List.mem_append.mp hb with hb | hb
    · exact Nat.lt_succ_of_lt (h2 b hb)
    · simp only [List.mem_singleton] at hb
      subst hb
      exact Nat.lt_succ_self _
  · rw [create_booking]
    simp only [List.map_append, List.map_cons, List.map_nil]
    rw [List.nodup_append]
    refine ⟨h3, List.nodup_singleton _, ?_⟩
    intro a ha
    simp only [List.mem_singleton]
    obtain ⟨c, hc, rfl⟩ := List.mem_map.mp ha
    exact Nat.ne_of_lt (h2 c hc)

theorem wf_update {s : Store} (bid : Nat) (d st et : String) (now : Nat)
    (hwf : Store.wf s) : Store.wf (update_booking s bid d st et now) := by
  obtain ⟨h1, h2, h3⟩ := hwf
  have hids : (update_booking s bid d st et now).bookings.map Booking.id =
      s.bookings.map Booking.id := by
    rw [update_booking]
    simp only [List.map_map]
    refine List.map_congr_left ?_
    intro b _
    by_cases hb : b.id = bid <;> simp [hb]
  refine ⟨h1, ?_, by rw [hids]; exact h3⟩
  intro b hb
  rw [update_booking] at hb
  obtain ⟨c, hc, rfl⟩ := List.mem_map.mp hb
  by_cases hcb : c.id = bid
  · rw [if_pos hcb]
    exact h2 c hc
  · rw [if_neg hcb]
    exact h2 c hc

theorem windowsOverlap_symm {a b : Booking} (h : windowsOverlap a b) :
    windowsOverlap b a :=
  ⟨h.2, h.1⟩

theorem noOverlap_of_noActive {R : Nat} {D : String} {bs : List Booking}
    (h : ∀ b ∈ bs, ¬ activeAt R D b) : NoOverlap R D bs := by
  intro i j hi hj hne hai haj
  exact absurd hai (h _ (bs.getElem_mem hi))

theorem noOverlap_append_single {R : Nat} {D : String} {bs : List Booking}
    {nb : Booking} (hno : NoOverlap R D bs)
    (hnb : ∀ b ∈ bs, activeAt R D b → activeAt R D nb →
      ¬ windowsOverlap b nb) :
    NoOverlap R D (bs ++ [nb]) := by
  intro i j hi hj hne hai haj hov
  rw [List.length_append, List.length_cons, List.length_nil] at hi hj
  have hcat : ∀ h : bs.length < (bs ++ [nb]).length, (bs ++ [nb])[bs.length] = nb := by
    intro h
    simp
  by_cases hilt : i < bs.length
  · by_cases hjlt : j < bs.length
    · rw [List.getElem_append_left hilt] at hai
      rw [List.getElem_append_left hjlt] at haj
      rw [List.getElem_append_left hilt, List.getElem_append_left hjlt] at hov
      exact hno i j hilt hjlt hne hai haj hov
    · have hj2 : j = bs.length := by omega
      subst hj2
      rw [List.getElem_append_left hilt] at hai
      rw [hcat (by simp)] at haj
      rw [List.getElem_append_left hilt, hcat (by simp)] at hov
      exact hnb _ (bs.getElem_mem hilt) hai haj hov
  · have hi2 : i = bs.length := by omega
    subst hi2
    by_cases hjlt : j < bs.length
    · rw [List.getElem_append_left hjlt] at haj
      rw [hcat (by simp)] at hai
      rw [List.getElem_append_left hjlt, hcat (by simp)] at hov
      exact hnb _ (bs.getElem_mem hjlt) haj hai (windowsOverlap_symm hov)
    · omega

theorem noOverlap_create {R : Nat} {D : String} {s : Store} {uid rid : Nat}
    {d st et : String} {now : Nat}
    (hav : is_room_available s.bookings rid d st et = true)
    (hno : NoOverlap R D s.bookings) :
    NoOverlap R D (create_booking s uid rid d st et now).2.bookings := by
  have hspec := (is_room_available_spec s.bookings rid d st et).mp hav
  refine noOverlap_append_single hno ?_
  intro b hb hbact hnbact hov
  obtain ⟨hr, hd, -⟩ := hnbact
  obtain ⟨hbr, hbd, hbs⟩ := hbact
  exact hspec b hb (hbr.trans hr.symm) (hbd.trans hd.symm) hbs hov

theorem noOverlap_update {R : Nat} {D : String} {s : Store} {bid : Nat}
    {d st et : String} {now : Nat} {row : Booking}
    (hwf : Store.wf s)
    (hrow : get_booking_by_id s.bookings bid = some row)
    (hav : is_room_available s.bookings row.room_id d st et = true)
    (hno : NoOverlap R D s.bookings) :
    NoOverlap R D (update_booking s bid d st et now).bookings := by
  obtain ⟨-, -, hnodup⟩ := hwf
  have hinj := List.inj_on_of_nodup_map hnodup
  have hrowmem : row ∈ s.bookings := List.mem_of_find?_eq_some hrow
  have hrowid : row.id = bid := by
    have := List.find?_some hrow
    simpa using this
  have hspec := (is_room_available_spec s.bookings row.room_id d st et).mp hav
  intro i j hi hj hne hai haj hov
  simp only [update_booking, List.length_map] at hi hj
  simp only [update_booking, List.getElem_map] at hai haj hov
  by_cases hbi : (s.bookings[i]).id = bid
  · by_cases hbj : (s.bookings[j]).id = bid
    · refine absurd ?_ hne
      have hieq : s.bookings[i] = row :=
        hinj (s.bookings.getElem_mem hi) hrowmem (by rw [hbi, hrowid])
      have hjeq : s.bookings[j] = row :=
        hinj (s.bookings.getElem_mem hj) hrowmem (by rw [hbj, hrowid])
      exact (List.Nodup.getElem_inj_iff hnodup.of_map).mp
        (hieq.trans hjeq.symm)
    · rw [if_pos hbi] at hai hov
      rw [if_neg hbj] at haj hov
      have hieq : s.bookings[i] = row :=
        hinj (s.bookings.getElem_mem hi) hrowmem (by rw [hbi, hrowid])
      obtain ⟨hr, hd2, -⟩ := hai
      obtain ⟨hbr, hbd, hbs⟩ := haj
      have hrr : row.room_id = R := hieq ▸ hr
      exact hspec _ (s.bookings.getElem_mem hj) (hbr.trans hrr.symm)
        (hbd.trans hd2.symm) hbs ⟨hov.2, hov.1⟩
  · by_cases hbj : (s.bookings[j]).id = bid
    · rw [if_neg hbi] at hai hov
      rw [if_pos hbj] at haj hov
      have hjeq : s.bookings[j] = row :=
        hinj (s.bookings.getElem_mem hj) hrowmem (by rw [hbj, hrowid])
      obtain ⟨hr, hd2, -⟩ := haj
      obtain ⟨hbr, hbd, hbs⟩ := hai
      have hrr : row.room_id = R := hjeq ▸ hr
      exact hspec _ (s.bookings.getElem_mem hi) (hbr.trans hrr.symm)
        (hbd.trans hd2.symm) hbs ⟨hov.1, hov.2⟩
    · rw [if_neg hbi] at hai hov
      rw [if_neg hbj] at haj hov
      exact hno i j hi hj hne hai haj hov

theorem reaches_wf_noOverlap {R : Nat} {D : String} {s0 s : Store}
    (hreach : Reaches s0 s) (hwf : Store.wf s0)
    (hinit : ∀ b ∈ s0.bookings, ¬ activeAt R D b) :
    Store.wf s ∧ NoOverlap R D s.bookings := by
  induction hreach with
  | refl => exact ⟨hwf, noOverlap_of_noActive hinit⟩
  | create env ident data now r hre hroute h201 ih =>
      obtain ⟨hwfs, hno⟩ := ih
      obtain ⟨uid, rid, d, st, et, hav, rfl⟩ :=
        make_booking_route_201 hroute h201
      exact ⟨wf_create uid rid d st et now hwfs, noOverlap_create hav hno⟩
  | update env ident bid data now r hre hroute h200 ih =>
      obtain ⟨hwfs, hno⟩ := ih
      obtain ⟨row, d, st, et, hrow, hav, rfl⟩ :=
        update_booking_route_200 hroute h200
      exact ⟨wf_update bid d st et now hwfs,
        noOverlap_update hwfs hrow hav hno⟩

/-- C1: from any well-formed store (ids pairwise distinct and below the
autoincrement counter, as the primary-key schema guarantees) with no
active booking at a given room and date, every store reachable by
successful Create (201) and Update (200) operations keeps the active
bookings at that room and date pairwise non-overlapping under the
half-open-window predicate. -/
theorem no_overlap_invariant (R : Nat) (D : String) (s0 s : Store)
    (hreach : Reaches s0 s) (hwf : Store.wf s0)
    (hinit : ∀ b ∈ s0.bookings, ¬ activeAt R D b) :
    NoOverlap R D s.bookings :=
  (reaches_wf_noOverlap hreach hwf hinit).2

/-- Witness for `no_overlap_invariant`: one successful Create from the
empty store reaches a one-booking store that satisfies the invariant. -/
theorem no_overlap_invariant_witness :
    NoOverlap 5 "2025-01-10"
      ({ bookings := [activeBooking], nextId := 2 } : Store).bookings :=
  no_overlap_invariant 5 "2025-01-10" { bookings := [], nextId := 1 }
    { bookings := [activeBooking], nextId := 2 }
    (Reaches.create { users := [], rooms := [5] } ⟨some "root", some "admin"⟩
      { user_id := some 1, room_id := some 5, date := some "2025-01-10",
        start_time := some "09:00", end_time := some "10:00" }
      0 ⟨201, "booking created"⟩ Reaches.refl (by decide) rfl)
    ⟨by decide, by simp, by simp⟩ (by simp)
